import Mathlib

/-!
# Verification of the container sandbox engine (`file_transfer/docker.go`)

Shallow embedding of the Docker-backed sandbox lifecycle code: the Docker
runtime client is modelled as a record of oracle functions returning
`Except Err _` (an `.error` models the Go call returning a non-nil error),
and each exported operation of `DockerService` is translated into a pure
Lean function over that oracle, following the Go control flow line by line.

Byte strings (`[]byte`, Go `string` payloads) are modelled as `List Nat`;
the `stdcopy.StdCopy` demultiplexer of the docker client library is
modelled at the byte level, including its tee into the transcript buffer
(`io.TeeReader`), with reads delivering exactly the bytes each step of the
copy loop requires.
-/

namespace FileTransfer

/-- Runtime-client errors, abstracted as strings (a Go non-nil `error`). -/
abbrev Err := String

/-- A mount specification (`mount.Mount`); passed through untouched by the code. -/
structure Mount where
  Source : String
  Target : String
  ReadOnly : Bool
  deriving Repr, DecidableEq

/-- The `container.Config` fields that `RunImage` populates.
`StopTimeout` is a `*int` in Go; `&timeout` is modelled as `some timeout`. -/
structure ContainerConfig where
  Image : String
  User : String
  Hostname : String
  WorkingDir : String
  NetworkDisabled : Bool
  Env : List String
  StopTimeout : Option Int
  deriving Repr, DecidableEq

/-- One `container.Ulimit` entry (name, soft limit, hard limit). -/
structure Ulimit where
  Name : String
  Soft : Int
  Hard : Int
  deriving Repr, DecidableEq

/-- The `container.Resources` fields that `RunImage` populates. -/
structure Resources where
  Ulimits : List Ulimit
  deriving Repr, DecidableEq

/-- The `container.HostConfig` fields that `RunImage` populates.
`MaskedPaths` is a `[]string`; the Go nil slice is modelled as `[]`.
`NetworkMode` is the underlying string of `container.NetworkMode`. -/
structure HostConfig where
  MaskedPaths : List String
  Mounts : List Mount
  ReadonlyRootfs : Bool
  AutoRemove : Bool
  NetworkMode : String
  Resources : Resources
  deriving Repr, DecidableEq

/-- Result of `ContainerCreate` (`container.CreateResponse`). -/
structure CreateResponse where
  ID : String
  deriving Repr, DecidableEq

/-- Result of `ContainerExecCreate` (`types.IDResponse`). -/
structure IDResponse where
  ID : String
  deriving Repr, DecidableEq

/-- `container.StopOptions`: `Timeout` is a `*int`; `&t` becomes `some t`. -/
structure StopOptions where
  Timeout : Option Int
  deriving Repr, DecidableEq

/-- The `container.ExecOptions` fields that `ExecContainer` populates. -/
structure ExecOptions where
  AttachStdout : Bool
  AttachStderr : Bool
  Cmd : List String
  Env : List String
  Privileged : Bool
  deriving Repr, DecidableEq

/-- Result of `ContainerExecInspect`: only the exit code is consumed. -/
structure ExecInspect where
  ExitCode : Int
  deriving Repr, DecidableEq

/-- The network-settings block of an inspect response; only the primary
`IPAddress` field is consumed by the code. -/
structure NetworkSettings where
  IPAddress : String
  deriving Repr, DecidableEq

/-- Result of `ContainerInspect`. In the Go API `NetworkSettings` is a
pointer (`*types.NetworkSettings`), so it is modelled as an `Option`:
`none` is a nil pointer. -/
structure ContainerJSON where
  NetworkSettings : Option NetworkSettings
  deriving Repr, DecidableEq

/-- The `container.LogsOptions` fields that `GetContainerLogs` populates. -/
structure LogsOptions where
  ShowStdout : Bool
  ShowStderr : Bool
  deriving Repr, DecidableEq

/-- The Docker runtime client, as the oracle of outcomes of each control-API
call the code makes. `containerExecAttach` yields the full byte contents
the attached stream will deliver before EOF; `containerLogs` yields, on
success, the outcome of reading the log stream to EOF (`io.ReadAll` can
itself fail, hence the nested `Except`). -/
structure DockerClient where
  containerCreate : ContainerConfig → HostConfig → String → Except Err CreateResponse
  containerStart : String → Except Err Unit
  containerStop : String → StopOptions → Except Err Unit
  containerInspect : String → Except Err ContainerJSON
  containerExecCreate : String → ExecOptions → Except Err IDResponse
  containerExecAttach : String → Except Err (List Nat)
  containerExecInspect : String → Except Err ExecInspect
  containerLogs : String → LogsOptions → Except Err (Except Err (List Nat))

/-- `DockerService` holds the runtime client. -/
structure DockerService where
  client : DockerClient

/-- The fixed masked-path list assigned when `mask` is true
(docker.go line 35). -/
def sensitivePaths : List String :=
  ["/etc", "/sys", "/proc/tty", "/proc/sys", "/proc/sysrq-trigger",
   "/proc/cmdline", "/proc/config.gz", "/proc/mounts", "/proc/fs",
   "/proc/device-tree", "/proc/bus"]

/-- `var masked []string; if mask { masked = [...] }` (docker.go lines 33-36):
the nil slice of the false branch is modelled as `[]`. -/
def runImageMasked (mask : Bool) : List String :=
  if mask then sensitivePaths else []

/-- `network := ""; if networkhosted { network = "host" }`
(docker.go lines 38-41). -/
def runImageNetwork (networkhosted : Bool) : String :=
  if networkhosted then "host" else ""

/-- The `container.Config` literal passed to `ContainerCreate`
(docker.go lines 43-50). -/
def runImageConfig (user hostname image workdir : String)
    (networkdisabled : Bool) (timeout : Int) (env : List String) :
    ContainerConfig :=
  { Image := image
    User := user
    Hostname := hostname
    WorkingDir := workdir
    NetworkDisabled := networkdisabled
    Env := env
    StopTimeout := some timeout }

/-- The `container.HostConfig` literal passed to `ContainerCreate`
(docker.go lines 51-60), including the fixed memlock ulimit. -/
def runImageHostConfig (mounts : List Mount)
    (mask ReadonlyRootfs networkhosted : Bool) : HostConfig :=
  { MaskedPaths := runImageMasked mask
    Mounts := mounts
    ReadonlyRootfs := ReadonlyRootfs
    AutoRemove := true
    NetworkMode := runImageNetwork networkhosted
    Resources := { Ulimits := [{ Name := "memlock", Soft := -1, Hard := -1 }] } }

/-- `RunImage` (docker.go lines 31-82): create the container with the built
parameters, then start it; either failure is logged and yields
`(false, "")`, success yields `(true, resp.ID)`. -/
def RunImage (ds : DockerService) (name user hostname image workdir : String)
    (mounts : List Mount) (mask ReadonlyRootfs networkdisabled : Bool)
    (timeout : Int) (networkhosted : Bool) (env : List String) :
    Bool × String :=
  match ds.client.containerCreate
      (runImageConfig user hostname image workdir networkdisabled timeout env)
      (runImageHostConfig mounts mask ReadonlyRootfs networkhosted) name with
  | .error _ => (false, "")
  | .ok resp =>
    match ds.client.containerStart resp.ID with
    | .error _ => (false, "")
    | .ok _ => (true, resp.ID)

/-- A stop request as issued to the runtime, for observing what
`CleanContainer` sends. -/
structure StopRequest where
  id : String
  opts : StopOptions
  deriving Repr, DecidableEq

/-- `CleanContainer` (docker.go lines 85-93): one `ContainerStop` call with
`Timeout = &1`; a failure is logged and swallowed (`return` with no value),
so the function returns nothing to the caller in either branch. The model
returns the list of stop requests issued to the runtime. -/
def CleanContainer (ds : DockerService) (id : String) : List StopRequest :=
  let timeout : Int := 1
  match ds.client.containerStop id { Timeout := some timeout } with
  | .error _ => [{ id := id, opts := { Timeout := some timeout } }]
  | .ok _ => [{ id := id, opts := { Timeout := some timeout } }]

/-- A Go runtime fault: `GetContainerIP` dereferences
`info.NetworkSettings` without a nil guard, which panics when the pointer
is nil. -/
inductive RuntimeFault where
  | nilDereference
  deriving Repr, DecidableEq

/-- `GetContainerIP` (docker.go lines 96-104): on inspect error, log and
return `""`; otherwise return `info.NetworkSettings.IPAddress`. The
unguarded pointer dereference is modelled by `.error .nilDereference`
when `NetworkSettings` is `none` (a nil-pointer panic in Go); every other
path is a normal `.ok` return. -/
def GetContainerIP (ds : DockerService) (id : String) :
    Except RuntimeFault String :=
  match ds.client.containerInspect id with
  | .error _ => .ok ""
  | .ok info =>
    match info.NetworkSettings with
    | none => .error RuntimeFault.nilDereference
    | some ns => .ok ns.IPAddress

/-- Everything `stdcopy.StdCopy` produces on one stream: the bytes written
to the stdout destination, the bytes written to the stderr destination,
the raw bytes read from the source (which `io.TeeReader` copies into the
transcript buffer), and the error returned, if any. -/
structure StdCopyOut where
  dstout : List Nat
  dsterr : List Nat
  teed : List Nat
  copyErr : Option Err
  deriving Repr, DecidableEq

/-- `stdcopy.StdCopy` of the docker client library, at the byte level.
Each frame is an 8-byte header `[fd, 0, 0, 0, s3, s2, s1, s0]` (fd 0/1 →
stdout destination, 2 → stderr, 3 → daemon error frame; s is the
big-endian payload size) followed by the payload. A stream ending before
a complete header or mid-frame returns with no error (as StdCopy does on
EOF); a frame of fd 3 returns the daemon error; any other fd returns the
unrecognized-header error. Reads are modelled as delivering exactly the
bytes each loop step requires, so `teed` is what the tee has seen when
the copy returns: the whole stream on every non-error path. -/
def stdCopy : List Nat → StdCopyOut
  | b0 :: b1 :: b2 :: b3 :: b4 :: b5 :: b6 :: b7 :: rest =>
    let frameSize := b4 * 2 ^ 24 + b5 * 2 ^ 16 + b6 * 2 ^ 8 + b7
    if b0 = 3 then
      if rest.length < frameSize then
        { dstout := [], dsterr := [],
          teed := b0 :: b1 :: b2 :: b3 :: b4 :: b5 :: b6 :: b7 :: rest,
          copyErr := none }
      else
        { dstout := [], dsterr := [],
          teed := b0 :: b1 :: b2 :: b3 :: b4 :: b5 :: b6 :: b7 :: rest.take frameSize,
          copyErr := some "error from daemon in stream" }
    else if b0 ≤ 2 then
      if rest.length < frameSize then
        { dstout := [], dsterr := [],
          teed := b0 :: b1 :: b2 :: b3 :: b4 :: b5 :: b6 :: b7 :: rest,
          copyErr := none }
      else
        let payload := rest.take frameSize
        let r := stdCopy (rest.drop frameSize)
        if b0 = 2 then
          { dstout := r.dstout, dsterr := payload ++ r.dsterr,
            teed := b0 :: b1 :: b2 :: b3 :: b4 :: b5 :: b6 :: b7 :: (payload ++ r.teed),
            copyErr := r.copyErr }
        else
          { dstout := payload ++ r.dstout, dsterr := r.dsterr,
            teed := b0 :: b1 :: b2 :: b3 :: b4 :: b5 :: b6 :: b7 :: (payload ++ r.teed),
            copyErr := r.copyErr }
    else
      { dstout := [], dsterr := [],
        teed := [b0, b1, b2, b3, b4, b5, b6, b7],
        copyErr := some "unrecognized input header" }
  | short => { dstout := [], dsterr := [], teed := short, copyErr := none }
termination_by src => src.length
decreasing_by
  simp only [List.length_drop, List.length_cons]
  omega

/-- The `container.ExecOptions` literal `ExecContainer` passes to
`ContainerExecCreate` (docker.go lines 111-117): attach both streams and
wrap the command as `sh -c cmd`. -/
def execCreateOptions (cmd : String) (env : List String) (privileged : Bool) :
    ExecOptions :=
  { AttachStdout := true, AttachStderr := true,
    Cmd := ["sh", "-c", cmd], Env := env, Privileged := privileged }

/-- The observable outcome of one `ExecContainer` call: the returned
triple `(exit code, transcript string, error)` and, as side observations,
the final contents of the internal transcript buffer `buf` and the bytes
written to the caller-supplied stdout/stderr sinks. -/
structure ExecOutcome where
  exitCode : Int
  transcript : List Nat
  execErr : Option Err
  bufFinal : List Nat
  stdoutWritten : List Nat
  stderrWritten : List Nat
  deriving Repr, DecidableEq

/-- `ExecContainer` (docker.go lines 107-155): create an exec session
running `sh -c cmd`, attach to its multiplexed output, copy the stream —
through `stdcopy.StdCopy` over a `TeeReader` into `buf` when both sinks
are non-nil (`stdoutSink`/`stderrSink` model `stdout != nil`,
`stderr != nil`), plain `io.Copy` into `buf` otherwise — then inspect the
exec session for its exit code. Create, attach and inspect errors each
return `(-1, "", err)`; a copy error is only logged. The deadline context
built from `timeout` governs wall-clock cancellation and has no effect in
this functional model. -/
def ExecContainer (ds : DockerService) (id cmd : String) (timeout : Int)
    (stdoutSink stderrSink : Bool) (env : List String) (privileged : Bool) :
    ExecOutcome :=
  match ds.client.containerExecCreate id (execCreateOptions cmd env privileged) with
  | .error e =>
    { exitCode := -1, transcript := [], execErr := some e,
      bufFinal := [], stdoutWritten := [], stderrWritten := [] }
  | .ok resp =>
    match ds.client.containerExecAttach resp.ID with
    | .error e =>
      { exitCode := -1, transcript := [], execErr := some e,
        bufFinal := [], stdoutWritten := [], stderrWritten := [] }
    | .ok raw =>
      let copied : List Nat × List Nat × List Nat :=
        if stdoutSink && stderrSink then
          let r := stdCopy raw
          (r.teed, r.dstout, r.dsterr)
        else
          (raw, [], [])
      match ds.client.containerExecInspect resp.ID with
      | .error e =>
        { exitCode := -1, transcript := [], execErr := some e,
          bufFinal := copied.1, stdoutWritten := copied.2.1,
          stderrWritten := copied.2.2 }
      | .ok insp =>
        { exitCode := insp.ExitCode, transcript := copied.1, execErr := none,
          bufFinal := copied.1, stdoutWritten := copied.2.1,
          stderrWritten := copied.2.2 }

/-- The `container.LogsOptions` literal `GetContainerLogs` passes to
`ContainerLogs` (docker.go lines 159-162): both streams requested. -/
def logsRequestOptions : LogsOptions :=
  { ShowStdout := true, ShowStderr := true }

/-- `GetContainerLogs` (docker.go lines 158-176): request the combined
stdout+stderr log stream, read it fully; either the request error or the
read error is propagated. -/
def GetContainerLogs (ds : DockerService) (id : String) :
    Except Err (List Nat) :=
  match ds.client.containerLogs id logsRequestOptions with
  | .error e => .error e
  | .ok reader =>
    match reader with
    | .error e => .error e
    | .ok res => .ok res

/-- One multiplexed stream frame as the daemon emits it: a destination
byte (0 stdin, 1 stdout, 2 stderr) and a payload. -/
structure StreamFrame where
  fd : Nat
  payload : List Nat
  deriving Repr, DecidableEq

/-- The wire encoding of one frame: the 8-byte header (destination byte,
three zero bytes, big-endian 32-bit payload size), then the payload. -/
def encodeFrame (f : StreamFrame) : List Nat :=
  f.fd :: 0 :: 0 :: 0 ::
    (f.payload.length / 2 ^ 24) :: (f.payload.length / 2 ^ 16 % 256) ::
    (f.payload.length / 2 ^ 8 % 256) :: (f.payload.length % 256) ::
    f.payload

/-- A whole multiplexed stream: the concatenated encodings of its frames. -/
def encodeFrames (fs : List StreamFrame) : List Nat :=
  (fs.map encodeFrame).flatten

/-- The bytes a frame-by-frame demultiplexer delivers to the stdout sink:
the payloads of the frames whose destination byte is not 2 (StdCopy sends
both 0 and 1 to the stdout destination), in stream order. -/
def demuxStdout (fs : List StreamFrame) : List Nat :=
  ((fs.filter (fun f => f.fd != 2)).map StreamFrame.payload).flatten

/-- The bytes a frame-by-frame demultiplexer delivers to the stderr sink:
the payloads of the frames whose destination byte is 2, in stream order. -/
def demuxStderr (fs : List StreamFrame) : List Nat :=
  ((fs.filter (fun f => f.fd == 2)).map StreamFrame.payload).flatten

/-- A runtime client on which every call succeeds with fixed responses;
`raw` is the byte stream the exec attach delivers. Used to instantiate
the contract theorems at concrete inputs. -/
def okClient (raw : List Nat) : DockerClient :=
  { containerCreate := fun _ _ _ => .ok { ID := "cid0" }
    containerStart := fun _ => .ok ()
    containerStop := fun _ _ => .ok ()
    containerInspect := fun _ =>
      .ok { NetworkSettings := some { IPAddress := "172.17.0.2" } }
    containerExecCreate := fun _ _ => .ok { ID := "eid0" }
    containerExecAttach := fun _ => .ok raw
    containerExecInspect := fun _ => .ok { ExitCode := 0 }
    containerLogs := fun _ _ => .ok (.ok [104, 105]) }

/-- A runtime client on which every call fails. -/
def failClient : DockerClient :=
  { containerCreate := fun _ _ _ => .error "create failed"
    containerStart := fun _ => .error "start failed"
    containerStop := fun _ _ => .error "stop failed"
    containerInspect := fun _ => .error "inspect failed"
    containerExecCreate := fun _ _ => .error "exec create failed"
    containerExecAttach := fun _ => .error "exec attach failed"
    containerExecInspect := fun _ => .error "exec inspect failed"
    containerLogs := fun _ _ => .error "logs failed" }

/-- A client whose create succeeds but whose start fails. -/
def startFailClient : DockerClient :=
  { okClient [] with containerStart := fun _ => .error "start failed" }

/-- A client whose inspect succeeds with a nil network-settings pointer. -/
def nilSettingsClient : DockerClient :=
  { okClient [] with containerInspect := fun _ => .ok { NetworkSettings := none } }

/-- A client whose log request succeeds but whose full read fails. -/
def logReadFailClient : DockerClient :=
  { okClient [] with containerLogs := fun _ _ => .ok (.error "read failed") }

/-- A client whose exec-session create and attach succeed but whose final
exec inspect fails. -/
def inspectFailClient : DockerClient :=
  { okClient [10, 20, 30] with
      containerExecInspect := fun _ => .error "exec inspect failed" }


/-- A small concrete multiplexed stream used to instantiate the
demultiplexing contract: a stdout frame carrying "hi", then a stderr
frame carrying "!". -/
def demoFrames : List StreamFrame :=
  [{ fd := 1, payload := [104, 105] }, { fd := 2, payload := [33] }]

/-- On the encoding of a list of routable frames whose sizes fit the
32-bit header field, `stdCopy` delivers each frame's payload to its
destination, finishes without error, and the tee has passed the whole
raw stream to the transcript buffer. -/
theorem stdCopy_encodeFrames (fs : List StreamFrame)
    (hwf : ∀ f ∈ fs, f.fd ≤ 2 ∧ f.payload.length < 2 ^ 32) :
    stdCopy (encodeFrames fs) =
      { dstout := demuxStdout fs, dsterr := demuxStderr fs,
        teed := encodeFrames fs, copyErr := none } := by
  induction fs with
  | nil => simp [encodeFrames, demuxStdout, demuxStderr, stdCopy]
  | cons f fs ih =>
    obtain ⟨hfd, hlen⟩ := hwf f (List.mem_cons_self f fs)
    have hrec := ih (fun g hg => hwf g (List.mem_cons_of_mem f hg))
    have henc : encodeFrames (f :: fs) =
        f.fd :: 0 :: 0 :: 0 ::
        (f.payload.length / 2 ^ 24) :: (f.payload.length / 2 ^ 16 % 256) ::
        (f.payload.length / 2 ^ 8 % 256) :: (f.payload.length % 256) ::
        (f.payload ++ encodeFrames fs) := by
      simp [encodeFrames, encodeFrame]
    have hsize : f.payload.length / 2 ^ 24 * 2 ^ 24 +
        f.payload.length / 2 ^ 16 % 256 * 2 ^ 16 +
        f.payload.length / 2 ^ 8 % 256 * 2 ^ 8 + f.payload.length % 256 =
        f.payload.length := by omega
    rw [henc, stdCopy]
    rw [if_neg (by omega : ¬ f.fd = 3)]
    rw [if_pos hfd]
    simp only [hsize]
    rw [if_neg (by simp)]
    by_cases hf2 : f.fd = 2
    · rw [if_pos hf2]
      rw [List.take_left, List.drop_left, hrec]
      simp [demuxStdout, demuxStderr, hf2, henc]
    · rw [if_neg hf2]
      rw [List.take_left, List.drop_left, hrec]
      simp [demuxStdout, demuxStderr, hf2, henc]

/-- C1: `RunImage` returns `ok=true` with a non-empty identifier exactly
when both the create call and the start call succeed; if either fails it
returns `(false, "")`, surfacing no handle. (The runtime is assumed to
assign a non-empty identifier on a successful create, hypothesis `hID`.) -/
theorem runImage_success_contract (ds : DockerService)
    (name user hostname image workdir : String) (mounts : List Mount)
    (mask ReadonlyRootfs networkdisabled : Bool) (timeout : Int)
    (networkhosted : Bool) (env : List String)
    (hID : ∀ resp, ds.client.containerCreate
        (runImageConfig user hostname image workdir networkdisabled timeout env)
        (runImageHostConfig mounts mask ReadonlyRootfs networkhosted) name =
          .ok resp → resp.ID ≠ "") :
    (((RunImage ds name user hostname image workdir mounts mask ReadonlyRootfs
        networkdisabled timeout networkhosted env).1 = true ∧
      (RunImage ds name user hostname image workdir mounts mask ReadonlyRootfs
        networkdisabled timeout networkhosted env).2 ≠ "") ↔
      (∃ resp, ds.client.containerCreate
          (runImageConfig user hostname image workdir networkdisabled timeout env)
          (runImageHostConfig mounts mask ReadonlyRootfs networkhosted) name =
            .ok resp ∧
        ds.client.containerStart resp.ID = .ok ())) ∧
    ((¬ ∃ resp, ds.client.containerCreate
          (runImageConfig user hostname image workdir networkdisabled timeout env)
          (runImageHostConfig mounts mask ReadonlyRootfs networkhosted) name =
            .ok resp ∧
        ds.client.containerStart resp.ID = .ok ()) →
      RunImage ds name user hostname image workdir mounts mask ReadonlyRootfs
        networkdisabled timeout networkhosted env = (false, "")) := by
  cases hcr : ds.client.containerCreate
      (runImageConfig user hostname image workdir networkdisabled timeout env)
      (runImageHostConfig mounts mask ReadonlyRootfs networkhosted) name with
  | error e =>
    constructor
    · simp [RunImage, hcr]
    · intro _
      simp [RunImage, hcr]
  | ok resp =>
    have hne := hID resp hcr
    cases hst : ds.client.containerStart resp.ID with
    | error e =>
      constructor
      · simp [RunImage, hcr, hst]
      · intro _
        simp [RunImage, hcr, hst]
    | ok u =>
      cases u
      constructor
      · simp [RunImage, hcr, hst, hne]
      · intro hno
        exact absurd ⟨resp, rfl, hst⟩ hno

/-- Witness for C1 at a concrete all-succeeding client. -/
theorem runImage_success_contract_w :
    (RunImage ⟨okClient []⟩ "n" "u" "h" "img" "/w" [] true true false 5
        false []).1 = true ∧
    (RunImage ⟨okClient []⟩ "n" "u" "h" "img" "/w" [] true true false 5
        false []).2 ≠ "" :=
  (runImage_success_contract ⟨okClient []⟩ "n" "u" "h" "img" "/w" [] true true
      false 5 false []
      (fun resp h => by
        simp only [okClient] at h
        cases h
        decide)).1.mpr ⟨{ ID := "cid0" }, rfl, rfl⟩

/-- C2: `ExecContainer` returns exit code `-1` with the propagated error
on a create, attach, or inspect failure; after a successful attach, the
inspect call alone determines the returned exit code and error, so a
stream-copy error never forces `-1` by itself (it is only logged, and the
last two clauses hold whatever the copy produced). -/
theorem execContainer_error_contract (ds : DockerService) (id cmd : String)
    (timeout : Int) (stdoutSink stderrSink : Bool) (env : List String)
    (privileged : Bool) :
    (∀ e, ds.client.containerExecCreate id (execCreateOptions cmd env privileged) =
        .error e →
      ExecContainer ds id cmd timeout stdoutSink stderrSink env privileged =
        { exitCode := -1, transcript := [], execErr := some e,
          bufFinal := [], stdoutWritten := [], stderrWritten := [] }) ∧
    (∀ resp e, ds.client.containerExecCreate id (execCreateOptions cmd env privileged) =
        .ok resp →
      ds.client.containerExecAttach resp.ID = .error e →
      ExecContainer ds id cmd timeout stdoutSink stderrSink env privileged =
        { exitCode := -1, transcript := [], execErr := some e,
          bufFinal := [], stdoutWritten := [], stderrWritten := [] }) ∧
    (∀ resp raw e, ds.client.containerExecCreate id (execCreateOptions cmd env privileged) =
        .ok resp →
      ds.client.containerExecAttach resp.ID = .ok raw →
      ds.client.containerExecInspect resp.ID = .error e →
      (ExecContainer ds id cmd timeout stdoutSink stderrSink env privileged).exitCode = -1 ∧
      (ExecContainer ds id cmd timeout stdoutSink stderrSink env privileged).execErr = some e ∧
      (ExecContainer ds id cmd timeout stdoutSink stderrSink env privileged).transcript = []) ∧
    (∀ resp raw insp, ds.client.containerExecCreate id (execCreateOptions cmd env privileged) =
        .ok resp →
      ds.client.containerExecAttach resp.ID = .ok raw →
      ds.client.containerExecInspect resp.ID = .ok insp →
      (ExecContainer ds id cmd timeout stdoutSink stderrSink env privileged).exitCode =
        insp.ExitCode ∧
      (ExecContainer ds id cmd timeout stdoutSink stderrSink env privileged).execErr =
        none) := by
  refine ⟨fun e hc => by simp [ExecContainer, hc],
          fun resp e hc ha => by simp [ExecContainer, hc, ha],
          fun resp raw e hc ha hi => by simp [ExecContainer, hc, ha, hi],
          fun resp raw insp hc ha hi => by simp [ExecContainer, hc, ha, hi]⟩

/-- Witness for C2: the final inspect fails on a concrete client whose
exec create and attach succeeded, and `ExecContainer` yields the `-1`
sentinel with that error. -/
theorem execContainer_error_contract_w :
    (ExecContainer ⟨inspectFailClient⟩ "c" "true" 5 true true [] false).exitCode = -1 ∧
    (ExecContainer ⟨inspectFailClient⟩ "c" "true" 5 true true [] false).execErr =
      some "exec inspect failed" ∧
    (ExecContainer ⟨inspectFailClient⟩ "c" "true" 5 true true [] false).transcript = [] :=
  (execContainer_error_contract ⟨inspectFailClient⟩ "c" "true" 5 true true []
      false).2.2.1 { ID := "eid0" } [10, 20, 30] "exec inspect failed" rfl rfl rfl

/-- C3: with both sinks supplied, `ExecContainer` demultiplexes the
attached stream frame by frame into the two sinks while the tee passes
every raw byte read into the internal transcript buffer (for a
well-formed stream, the whole raw stream); with either sink absent, the
raw stream is copied verbatim into the buffer and nothing is written to
any sink. -/
theorem execContainer_demux_contract (ds : DockerService) (id cmd : String)
    (timeout : Int) (env : List String) (privileged : Bool)
    (resp : IDResponse) (raw : List Nat)
    (hc : ds.client.containerExecCreate id (execCreateOptions cmd env privileged) =
      .ok resp)
    (ha : ds.client.containerExecAttach resp.ID = .ok raw) :
    (∀ fs, raw = encodeFrames fs →
      (∀ f ∈ fs, f.fd ≤ 2 ∧ f.payload.length < 2 ^ 32) →
      (ExecContainer ds id cmd timeout true true env privileged).stdoutWritten =
        demuxStdout fs ∧
      (ExecContainer ds id cmd timeout true true env privileged).stderrWritten =
        demuxStderr fs ∧
      (ExecContainer ds id cmd timeout true true env privileged).bufFinal = raw) ∧
    (∀ stdoutSink stderrSink : Bool, ¬ (stdoutSink = true ∧ stderrSink = true) →
      (ExecContainer ds id cmd timeout stdoutSink stderrSink env privileged).bufFinal =
        raw ∧
      (ExecContainer ds id cmd timeout stdoutSink stderrSink env privileged).stdoutWritten =
        [] ∧
      (ExecContainer ds id cmd timeout stdoutSink stderrSink env privileged).stderrWritten =
        []) := by
  constructor
  · intro fs hraw hwf
    have hstd := stdCopy_encodeFrames fs hwf
    cases hi : ds.client.containerExecInspect resp.ID with
    | error e => simp [ExecContainer, hc, ha, hi, hraw, hstd]
    | ok insp => simp [ExecContainer, hc, ha, hi, hraw, hstd]
  · intro stdoutSink stderrSink hnot
    have hff : (stdoutSink && stderrSink) = false := by
      cases stdoutSink <;> cases stderrSink <;> simp_all
    cases hi : ds.client.containerExecInspect resp.ID with
    | error e => simp [ExecContainer, hc, ha, hi, hff]
    | ok insp => simp [ExecContainer, hc, ha, hi, hff]

/-- Witness for C3 on a concrete two-frame stream: the stdout frame's
payload reaches the stdout sink, the stderr frame's payload the stderr
sink, and the buffer holds the raw stream; with the stderr sink absent
the raw stream goes verbatim to the buffer only. -/
theorem execContainer_demux_contract_w :
    ((ExecContainer ⟨okClient (encodeFrames demoFrames)⟩ "c" "echo hi" 5 true
        true [] false).stdoutWritten = demuxStdout demoFrames ∧
     (ExecContainer ⟨okClient (encodeFrames demoFrames)⟩ "c" "echo hi" 5 true
        true [] false).stderrWritten = demuxStderr demoFrames ∧
     (ExecContainer ⟨okClient (encodeFrames demoFrames)⟩ "c" "echo hi" 5 true
        true [] false).bufFinal = encodeFrames demoFrames) ∧
    ((ExecContainer ⟨okClient (encodeFrames demoFrames)⟩ "c" "echo hi" 5 true
        false [] false).bufFinal = encodeFrames demoFrames ∧
     (ExecContainer ⟨okClient (encodeFrames demoFrames)⟩ "c" "echo hi" 5 true
        false [] false).stdoutWritten = [] ∧
     (ExecContainer ⟨okClient (encodeFrames demoFrames)⟩ "c" "echo hi" 5 true
        false [] false).stderrWritten = []) :=
  ⟨(execContainer_demux_contract ⟨okClient (encodeFrames demoFrames)⟩ "c"
      "echo hi" 5 [] false { ID := "eid0" } (encodeFrames demoFrames) rfl
      rfl).1 demoFrames rfl (by decide),
   (execContainer_demux_contract ⟨okClient (encodeFrames demoFrames)⟩ "c"
      "echo hi" 5 [] false { ID := "eid0" } (encodeFrames demoFrames) rfl
      rfl).2 true false (by simp)⟩

/-- C4: the built host configuration's masked-path list is exactly the
fixed eleven-entry list when `mask` is true, and empty (the Go nil slice)
when `mask` is false. -/
theorem runImage_maskedPaths_contract (mounts : List Mount)
    (ReadonlyRootfs networkhosted : Bool) :
    (runImageHostConfig mounts true ReadonlyRootfs networkhosted).MaskedPaths =
      ["/etc", "/sys", "/proc/tty", "/proc/sys", "/proc/sysrq-trigger",
       "/proc/cmdline", "/proc/config.gz", "/proc/mounts", "/proc/fs",
       "/proc/device-tree", "/proc/bus"] ∧
    (runImageHostConfig mounts false ReadonlyRootfs networkhosted).MaskedPaths =
      [] :=
  ⟨rfl, rfl⟩

/-- C6: the built host configuration's network mode is `"host"` exactly
when `networkhosted` is true and the empty (default/unset) string
otherwise, while `networkdisabled` is passed through to the container
configuration, which does not depend on `networkhosted` at all — the
builder resolves no conflict between the two switches. -/
theorem runImage_network_contract (user hostname image workdir : String)
    (mounts : List Mount) (mask ReadonlyRootfs : Bool) (timeout : Int)
    (env : List String) (networkdisabled : Bool) :
    (runImageHostConfig mounts mask ReadonlyRootfs true).NetworkMode = "host" ∧
    (runImageHostConfig mounts mask ReadonlyRootfs false).NetworkMode = "" ∧
    (runImageConfig user hostname image workdir networkdisabled timeout
        env).NetworkDisabled = networkdisabled :=
  ⟨rfl, rfl, rfl⟩

/-- C7: the built creation parameters always enable auto-removal, carry
the caller's read-only-root flag unchanged, set exactly one ulimit —
memlock with soft and hard both `-1` (unlimited) — and pass the caller's
stop-timeout through as `some timeout` with no default substituted. -/
theorem runImage_fixed_params_contract (user hostname image workdir : String)
    (mounts : List Mount) (mask ReadonlyRootfs networkhosted : Bool)
    (timeout : Int) (env : List String) (networkdisabled : Bool) :
    (runImageHostConfig mounts mask ReadonlyRootfs networkhosted).AutoRemove =
      true ∧
    (runImageHostConfig mounts mask ReadonlyRootfs networkhosted).ReadonlyRootfs =
      ReadonlyRootfs ∧
    (runImageHostConfig mounts mask ReadonlyRootfs networkhosted).Resources.Ulimits =
      [{ Name := "memlock", Soft := -1, Hard := -1 }] ∧
    (runImageConfig user hostname image workdir networkdisabled timeout
        env).StopTimeout = some timeout :=
  ⟨rfl, rfl, rfl, rfl⟩

/-- C8: `CleanContainer` issues exactly one stop request carrying a
1-second grace period, and returns the same errorless result whatever the
stop call's outcome (`ds` is arbitrary, so both the success branch and
the swallowed-failure branch are covered); in particular a second call on
the same handle behaves identically and raises nothing. -/
theorem cleanContainer_contract (ds : DockerService) (id : String) :
    CleanContainer ds id = [{ id := id, opts := { Timeout := some 1 } }] := by
  cases h : ds.client.containerStop id { Timeout := some 1 } with
  | error e => simp [CleanContainer, h]
  | ok u => simp [CleanContainer, h]

/-- C9: on an inspect failure `GetContainerIP` returns the empty string
through its error-free channel, while `GetContainerLogs` propagates an
explicit error both when the log request fails and when the full read
fails — the two inspectors signal failure asymmetrically. -/
theorem inspector_asymmetry_contract (ds : DockerService) (id : String) :
    (∀ e, ds.client.containerInspect id = .error e →
      GetContainerIP ds id = .ok "") ∧
    (∀ e, ds.client.containerLogs id logsRequestOptions = .error e →
      GetContainerLogs ds id = .error e) ∧
    (∀ e, ds.client.containerLogs id logsRequestOptions = .ok (.error e) →
      GetContainerLogs ds id = .error e) :=
  ⟨fun e h => by simp [GetContainerIP, h],
   fun e h => by simp [GetContainerLogs, h],
   fun e h => by simp [GetContainerLogs, h]⟩

/-- Witness for C9 at concrete failing clients. -/
theorem inspector_asymmetry_contract_w :
    GetContainerIP ⟨failClient⟩ "c" = .ok "" ∧
    GetContainerLogs ⟨failClient⟩ "c" = .error "logs failed" ∧
    GetContainerLogs ⟨logReadFailClient⟩ "c" = .error "read failed" :=
  ⟨(inspector_asymmetry_contract ⟨failClient⟩ "c").1 "inspect failed" rfl,
   (inspector_asymmetry_contract ⟨failClient⟩ "c").2.1 "logs failed" rfl,
   (inspector_asymmetry_contract ⟨logReadFailClient⟩ "c").2.2 "read failed" rfl⟩

/-- C10: when inspect succeeds, `GetContainerIP` dereferences the
network-settings pointer with no nil guard: with a non-nil pointer it
returns exactly the runtime-reported primary IP address, and with a nil
pointer the dereference is a runtime fault (the Go code would panic). -/
theorem getContainerIP_deref_contract (ds : DockerService) (id : String)
    (info : ContainerJSON)
    (h : ds.client.containerInspect id = .ok info) :
    (∀ ns, info.NetworkSettings = some ns →
      GetContainerIP ds id = .ok ns.IPAddress) ∧
    (info.NetworkSettings = none →
      GetContainerIP ds id = .error RuntimeFault.nilDereference) :=
  ⟨fun ns hns => by simp [GetContainerIP, h, hns],
   fun hns => by simp [GetContainerIP, h, hns]⟩

/-- Witness for C10: a concrete client with non-nil settings yields the
reported address; one with a nil pointer yields the dereference fault. -/
theorem getContainerIP_deref_contract_w :
    GetContainerIP ⟨okClient []⟩ "c" = .ok "172.17.0.2" ∧
    GetContainerIP ⟨nilSettingsClient⟩ "c" =
      .error RuntimeFault.nilDereference :=
  ⟨(getContainerIP_deref_contract ⟨okClient []⟩ "c"
      { NetworkSettings := some { IPAddress := "172.17.0.2" } } rfl).1
      { IPAddress := "172.17.0.2" } rfl,
   (getContainerIP_deref_contract ⟨nilSettingsClient⟩ "c"
      { NetworkSettings := none } rfl).2 rfl⟩

end FileTransfer
